import Mathlib

/-!
Verification of the NowCapital MCP server (src/server.py).

The development shallowly embeds the request-orchestration layer of the
server: the payload normalization performed by `construct_payload` (with its
inner helper `distribute_savings`), the per-tool payload adjustments of
`start_monte_carlo_simulation`, the synchronous invokers
`calculate_sustainable_spend` / `calculate_detailed_spend_plan` (their error
classification), and the polling loop of `get_monte_carlo_results`.

Python floats are modelled as exact rationals (the decimal literals of the
source, such as 0.50 or 0.9, are exact in this model), Python ints as `Int`,
`None`-able parameters as `Option`.  JSON documents exchanged with the
backend are modelled by the inductive `JVal`.  The network is modelled as a
state machine (`Backend`) returning either a decoded JSON body or an
exception message (covering transport errors, `raise_for_status` and JSON
decoding errors uniformly); the poll loop additionally records the trace of
requests it issues, so that claims about which endpoints are contacted, how
often and for which identifier become statements about that trace.
-/

namespace NowCapital

/-- JSON values, as decoded by `response.json()` in the source.  Numbers are
modelled as exact rationals. -/
inductive JVal where
  | jnull : JVal
  | jbool : Bool → JVal
  | jnum : ℚ → JVal
  | jstr : String → JVal
  | jarr : List JVal → JVal
  | jobj : List (String × JVal) → JVal

/-- Key lookup in a JSON object, mirroring Python dict lookup
(`d.get(k)` / `k in d`).  Returns `none` when the key is absent. -/
def jlookup : List (String × JVal) → String → Option JVal
  | [], _ => none
  | kv :: rest, key => if kv.1 = key then some kv.2 else jlookup rest key

/-- Models the Python comparison `d.get(k) == "some string"`: true exactly
when the looked-up value is a string equal to `t`. -/
def jvalIsStr : Option JVal → String → Bool
  | some (JVal.jstr s), t => decide (s = t)
  | _, _ => false

/-- Models the Python comparison of a JSON value against a string literal
(`v == "s"`). -/
def jvalEqStr : JVal → String → Bool
  | JVal.jstr t, s => decide (t = s)
  | _, _ => false

/-- The orchestrator-redirect test of `get_monte_carlo_results`
(src/server.py line 977):
`isinstance(result_body, dict) and "result_id" in result_body and
result_body.get("status") == "Orchestrator started"`. -/
def isRedirect : JVal → Bool
  | JVal.jobj kvs =>
      (jlookup kvs "result_id").isSome &&
      jvalIsStr (jlookup kvs "status") "Orchestrator started"
  | _ => false

/-- The identifier extracted on redirect: `result_body["result_id"]`
(src/server.py line 979).  Only consulted when `isRedirect` holds, in which
case the key is present; the `JVal.jnull` default is never reached then. -/
def redirectTarget : JVal → JVal
  | JVal.jobj kvs => (jlookup kvs "result_id").getD JVal.jnull
  | _ => JVal.jnull

/-- The HTTP backend seen by the polling loop, as a state machine.  Each
request either yields a decoded JSON body (`Except.ok`) or raises
(`Except.error msg`, covering connection errors, non-2xx statuses surfaced
by `raise_for_status`, and JSON decoding failures — all of which land in the
same `except` handler in the source). -/
structure Backend (σ : Type) where
  statusReq : σ → JVal → Except String JVal × σ
  resultReq : σ → JVal → Except String JVal × σ

/-- One outbound request issued by the polling loop, recorded with the
identifier interpolated into the URL
(`GET {base}/simulations/status/{id}` or `GET {base}/simulations/result/{id}`). -/
inductive Req where
  | statusGet (id : JVal)
  | resultGet (id : JVal)

/-- The dictionary shapes `get_monte_carlo_results` can return:
`{"status": "SUCCESS", "result": ...}`, `{"status": "FAILURE", "error": ...}`,
`{"status": "PROCESSING", "job_id": ..., "message": ...}` and
`{"error": ...}` (configuration and polling errors). -/
inductive PollOutcome where
  | success (result : JVal)
  | failure (err : JVal)
  | processing (job_id : JVal)
  | errorRes (msg : String)

/-- Prefix applied to exception text by the polling `except` handler:
`{"error": f"Polling Error: {str(e)}"}`. -/
def pollingError (e : String) : String := "Polling Error: " ++ e

/-- Abstracts the text of the Python `AttributeError` raised when
`status_data.get` is called on a non-dict JSON body; the exact wording is
irrelevant to every claim, only that the `except` branch fires. -/
def attributeErrorText : String := "AttributeError: no attribute get"

/-- The `for i in range(15)` polling loop of `get_monte_carlo_results`
(src/server.py lines 965-997), parameterized by the remaining attempt
budget.  Returns the tool result, the final backend state, and the trace of
requests issued.  On budget exhaustion it returns the `PROCESSING` dict
carrying the currently tracked identifier. -/
def pollLoop (B : Backend σ) : Nat → σ → JVal → PollOutcome × σ × List Req
  | 0, _s, cur => (PollOutcome.processing cur, _s, [])
  | n + 1, s, cur =>
    match B.statusReq s cur with
    | (Except.error e, s1) =>
        (PollOutcome.errorRes (pollingError e), s1, [Req.statusGet cur])
    | (Except.ok sd, s1) =>
      match sd with
      | JVal.jobj kvs =>
        if jvalIsStr (jlookup kvs "status") "SUCCESS" then
          match B.resultReq s1 cur with
          | (Except.error e, s2) =>
              (PollOutcome.errorRes (pollingError e), s2,
                [Req.statusGet cur, Req.resultGet cur])
          | (Except.ok body, s2) =>
            if isRedirect body then
              let r := pollLoop B n s2 (redirectTarget body)
              (r.1, r.2.1, Req.statusGet cur :: Req.resultGet cur :: r.2.2)
            else
              (PollOutcome.success body, s2,
                [Req.statusGet cur, Req.resultGet cur])
        else if jvalIsStr (jlookup kvs "status") "FAILURE" then
          (PollOutcome.failure ((jlookup kvs "error").getD JVal.jnull), s1,
            [Req.statusGet cur])
        else
          let r := pollLoop B n s1 cur
          (r.1, r.2.1, Req.statusGet cur :: r.2.2)
      | _ =>
        (PollOutcome.errorRes (pollingError attributeErrorText), s1,
          [Req.statusGet cur])

/-- Python truthiness of an optional string (`if not final_api_key`):
falsy when absent or empty. -/
def pyFalsyOptStr : Option String → Bool
  | none => true
  | some s => decide (s = "")

/-- `get_monte_carlo_results` (src/server.py lines 936-997).  The resolved
API key and base URL are inputs (credential resolution is the excluded
`get_api_key` lookup); the network is the `Backend` state machine. -/
def get_monte_carlo_results (B : Backend σ) (s : σ)
    (apiKey apiUrl : Option String) (job_id : String) :
    PollOutcome × σ × List Req :=
  if pyFalsyOptStr apiKey then
    (PollOutcome.errorRes "Authentication Failed.", s, [])
  else if pyFalsyOptStr apiUrl then
    (PollOutcome.errorRes "API URL missing.", s, [])
  else
    pollLoop B 15 s (JVal.jstr job_id)

/-- The keyword-argument set shared by `construct_payload` and the three
simulation tools (src/server.py lines 57-147): Python floats as `ℚ`, ints as
`Int`, `None`-able parameters as `Option`.  The opaque list-of-dict
parameters (`additional_events`, `expense_phases`) are carried as raw JSON
lists. -/
structure CPArgs where
  current_age : Int
  retirement_age : Int
  province : String
  total_savings : ℚ
  savings_rrsp : ℚ
  savings_tfsa : ℚ
  savings_non_reg : ℚ
  name : String
  death_age : Int
  non_reg_acb : Option ℚ
  lira : ℚ
  tfsa_contribution_room : ℚ
  rrsp_contribution_room : ℚ
  cpp_start_age : Int
  oas_start_age : Int
  base_cpp_amount : ℚ
  base_oas_amount : ℚ
  db_enabled : Bool
  db_pension_income : ℚ
  db_start_age : Int
  db_index_before_retirement : Bool
  db_index_after_retirement : ℚ
  enable_rrsp_meltdown : Bool
  lif_conversion_age : Int
  rrif_conversion_age : Int
  lif_type : Int
  db_index_after_retirement_to_cpi : Bool
  db_cpp_clawback_fraction : ℚ
  db_survivor_benefit_percentage : ℚ
  pension_plan_type : String
  has_10_year_guarantee : Bool
  has_supplementary_death_benefit : Bool
  db_share_to_spouse : ℚ
  db_is_survivor_pension : Bool
  rrsp_contribution : ℚ
  tfsa_contribution : ℚ
  non_registered_contribution : ℚ
  non_registered_growth_capital_gains_pct : ℚ
  non_registered_dividend_yield_pct : ℚ
  non_registered_eligible_dividend_proportion_pct : ℚ
  additional_events : Option (List JVal)
  spouse_name : String
  spouse_age : Option Int
  spouse_retirement_age : Option Int
  spouse_death_age : Int
  spouse_total_savings : ℚ
  spouse_savings_rrsp : ℚ
  spouse_savings_tfsa : ℚ
  spouse_savings_non_reg : ℚ
  spouse_non_reg_acb : Option ℚ
  spouse_lira : ℚ
  spouse_tfsa_contribution_room : ℚ
  spouse_rrsp_contribution_room : ℚ
  spouse_cpp_start_age : Int
  spouse_oas_start_age : Int
  spouse_base_cpp_amount : ℚ
  spouse_base_oas_amount : ℚ
  spouse_db_enabled : Bool
  spouse_db_pension_income : ℚ
  spouse_db_start_age : Int
  spouse_db_index_before_retirement : Bool
  spouse_db_index_after_retirement : ℚ
  spouse_enable_rrsp_meltdown : Bool
  spouse_lif_conversion_age : Int
  spouse_rrif_conversion_age : Int
  spouse_lif_type : Int
  spouse_db_index_after_retirement_to_cpi : Bool
  spouse_db_cpp_clawback_fraction : ℚ
  spouse_db_survivor_benefit_percentage : ℚ
  spouse_pension_plan_type : String
  spouse_has_10_year_guarantee : Bool
  spouse_has_supplementary_death_benefit : Bool
  spouse_db_share_to_spouse : ℚ
  spouse_db_is_survivor_pension : Bool
  spouse_rrsp_contribution : ℚ
  spouse_tfsa_contribution : ℚ
  spouse_non_registered_contribution : ℚ
  spouse_non_registered_growth_capital_gains_pct : ℚ
  spouse_non_registered_dividend_yield_pct : ℚ
  spouse_non_registered_eligible_dividend_proportion_pct : ℚ
  spouse_additional_events : Option (List JVal)
  income_split : Option Bool
  expected_returns : ℚ
  cpi : ℚ
  allocation : ℚ
  base_tfsa_amount : ℚ
  survivor_expense_percent : ℚ
  expense_phases : Option (List JVal)
  enable_belt_tightening : Bool

/-- The inner helper of `construct_payload` (src/server.py lines 149-153):
`if (r + t + n) == 0 and total > 0: return total*0.50, total*0.20, total*0.30
else: return r, t, n`.  The `float()` coercions are identities here since the
arguments are already rationals. -/
def distribute_savings (total r t n : ℚ) : ℚ × ℚ × ℚ :=
  if r + t + n = 0 ∧ total > 0 then
    (total * 0.50, total * 0.20, total * 0.30)
  else (r, t, n)

/-- Python `x if x else d` on an `Optional[int]`: falls back to `d` when the
value is absent *or* zero (integer falsiness), as in
`p2_retire = spouse_retirement_age if spouse_retirement_age else retirement_age`
(src/server.py line 167). -/
def pyOrElseInt : Option Int → Int → Int
  | some v, d => if v = 0 then d else v
  | none, d => d

/-- The `person1_ui` block of the payload (src/server.py lines 180-220).
The `additional_events` key is present only when the caller supplied a list
(lines 284-285), modelled by the `Option`. -/
structure Person1UI where
  name : String
  current_age : Int
  retirement_age : Int
  death_age : Int
  province : String
  rrsp : ℚ
  tfsa : ℚ
  non_registered : ℚ
  lira : ℚ
  cost_basis : ℚ
  rrsp_contribution_room : ℚ
  tfsa_contribution_room : ℚ
  cpp_start_age : Int
  oas_start_age : Int
  base_cpp_amount : ℚ
  base_oas_amount : ℚ
  db_enabled : Bool
  db_pension_income : ℚ
  db_start_age : Int
  db_index_before_retirement : Bool
  db_index_after_retirement : ℚ
  db_index_after_retirement_to_cpi : Bool
  db_cpp_clawback_fraction : ℚ
  db_survivor_benefit_percentage : ℚ
  pension_plan_type : String
  has_10_year_guarantee : Bool
  has_supplementary_death_benefit : Bool
  db_share_to_spouse : ℚ
  db_is_survivor_pension : Bool
  enable_rrsp_meltdown : Bool
  lif_conversion_age : Int
  rrif_conversion_age : Int
  lif_type : Int
  non_registered_growth_capital_gains_pct : ℚ
  non_registered_dividend_yield_pct : ℚ
  non_registered_eligible_dividend_proportion_pct : ℚ
  rrsp_contribution : ℚ
  tfsa_contribution : ℚ
  non_registered_contribution : ℚ
  additional_events : Option (List JVal)

/-- The `person2_ui` block of the payload (src/server.py lines 221-260);
unlike `person1_ui` it carries no `province` key. -/
structure Person2UI where
  name : String
  current_age : Int
  retirement_age : Int
  death_age : Int
  rrsp : ℚ
  tfsa : ℚ
  non_registered : ℚ
  lira : ℚ
  cost_basis : ℚ
  rrsp_contribution_room : ℚ
  tfsa_contribution_room : ℚ
  cpp_start_age : Int
  oas_start_age : Int
  base_cpp_amount : ℚ
  base_oas_amount : ℚ
  db_enabled : Bool
  db_pension_income : ℚ
  db_start_age : Int
  db_index_before_retirement : Bool
  db_index_after_retirement : ℚ
  db_index_after_retirement_to_cpi : Bool
  db_cpp_clawback_fraction : ℚ
  db_survivor_benefit_percentage : ℚ
  pension_plan_type : String
  has_10_year_guarantee : Bool
  has_supplementary_death_benefit : Bool
  db_share_to_spouse : ℚ
  db_is_survivor_pension : Bool
  enable_rrsp_meltdown : Bool
  lif_conversion_age : Int
  rrif_conversion_age : Int
  lif_type : Int
  non_registered_growth_capital_gains_pct : ℚ
  non_registered_dividend_yield_pct : ℚ
  non_registered_eligible_dividend_proportion_pct : ℚ
  rrsp_contribution : ℚ
  tfsa_contribution : ℚ
  non_registered_contribution : ℚ
  additional_events : Option (List JVal)

/-- The `inputs` block of the payload (src/server.py lines 261-271), plus the
`expense_phases` key added conditionally at lines 282-283. -/
structure Inputs where
  expected_returns : ℚ
  cpi : ℚ
  province : String
  individual : Bool
  income_split : Bool
  rrif_min_withdrawal : Bool
  allocation : ℚ
  base_tfsa_amount : ℚ
  survivor_expense_percent : ℚ
  expense_phases : Option (List JVal)

/-- The fixed `withdrawal_strategy` block (src/server.py lines 272-279): a
single fallback weight per person with a hard-coded account order. -/
structure WithdrawalStrategy where
  person1_order : List String
  person2_order : List String

/-- The complete request document built by `construct_payload`. -/
structure Payload where
  person1_ui : Person1UI
  person2_ui : Person2UI
  inputs : Inputs
  withdrawal_strategy : WithdrawalStrategy

/-- `construct_payload` (src/server.py lines 57-289).  Field-by-field
transcription of the payload dictionary; the conditional `additional_events`
and `expense_phases` keys become the `Option` fields of the blocks.  The
`enable_belt_tightening` argument is accepted but, as in the source, never
used. -/
def construct_payload (a : CPArgs) : Payload :=
  let p1s := distribute_savings a.total_savings a.savings_rrsp a.savings_tfsa a.savings_non_reg
  let p1_cost_basis : ℚ :=
    match a.non_reg_acb with
    | some acb => acb
    | none => if p1s.2.2 > 0 then p1s.2.2 * 0.9 else 0
  let is_couple := a.spouse_age.isSome
  let p2_age := match a.spouse_age with
    | some x => x
    | none => a.current_age
  let p2_retire := pyOrElseInt a.spouse_retirement_age a.retirement_age
  let p2s := distribute_savings a.spouse_total_savings a.spouse_savings_rrsp a.spouse_savings_tfsa a.spouse_savings_non_reg
  let p2_cost_basis : ℚ :=
    match a.spouse_non_reg_acb with
    | some acb => acb
    | none => if p2s.2.2 > 0 then p2s.2.2 * 0.9 else 0
  let final_income_split := match a.income_split with
    | some b => b
    | none => is_couple
  { person1_ui :=
      { name := a.name
        current_age := a.current_age
        retirement_age := a.retirement_age
        death_age := a.death_age
        province := a.province
        rrsp := p1s.1
        tfsa := p1s.2.1
        non_registered := p1s.2.2
        lira := a.lira
        cost_basis := p1_cost_basis
        rrsp_contribution_room := a.rrsp_contribution_room
        tfsa_contribution_room := a.tfsa_contribution_room
        cpp_start_age := a.cpp_start_age
        oas_start_age := a.oas_start_age
        base_cpp_amount := a.base_cpp_amount
        base_oas_amount := a.base_oas_amount
        db_enabled := a.db_enabled
        db_pension_income := a.db_pension_income
        db_start_age := a.db_start_age
        db_index_before_retirement := a.db_index_before_retirement
        db_index_after_retirement := a.db_index_after_retirement
        db_index_after_retirement_to_cpi := a.db_index_after_retirement_to_cpi
        db_cpp_clawback_fraction := a.db_cpp_clawback_fraction
        db_survivor_benefit_percentage := a.db_survivor_benefit_percentage
        pension_plan_type := a.pension_plan_type
        has_10_year_guarantee := a.has_10_year_guarantee
        has_supplementary_death_benefit := a.has_supplementary_death_benefit
        db_share_to_spouse := a.db_share_to_spouse
        db_is_survivor_pension := a.db_is_survivor_pension
        enable_rrsp_meltdown := a.enable_rrsp_meltdown
        lif_conversion_age := a.lif_conversion_age
        rrif_conversion_age := a.rrif_conversion_age
        lif_type := a.lif_type
        non_registered_growth_capital_gains_pct := a.non_registered_growth_capital_gains_pct
        non_registered_dividend_yield_pct := a.non_registered_dividend_yield_pct
        non_registered_eligible_dividend_proportion_pct := a.non_registered_eligible_dividend_proportion_pct
        rrsp_contribution := a.rrsp_contribution
        tfsa_contribution := a.tfsa_contribution
        non_registered_contribution := a.non_registered_contribution
        additional_events := a.additional_events }
    person2_ui :=
      { name := a.spouse_name
        current_age := p2_age
        retirement_age := p2_retire
        death_age := a.spouse_death_age
        rrsp := p2s.1
        tfsa := p2s.2.1
        non_registered := p2s.2.2
        lira := a.spouse_lira
        cost_basis := p2_cost_basis
        rrsp_contribution_room := a.spouse_rrsp_contribution_room
        tfsa_contribution_room := a.spouse_tfsa_contribution_room
        cpp_start_age := a.spouse_cpp_start_age
        oas_start_age := a.spouse_oas_start_age
        base_cpp_amount := if is_couple then a.spouse_base_cpp_amount else 0
        base_oas_amount := if is_couple then a.spouse_base_oas_amount else 0
        db_enabled := a.spouse_db_enabled
        db_pension_income := a.spouse_db_pension_income
        db_start_age := a.spouse_db_start_age
        db_index_before_retirement := a.spouse_db_index_before_retirement
        db_index_after_retirement := a.spouse_db_index_after_retirement
        db_index_after_retirement_to_cpi := a.spouse_db_index_after_retirement_to_cpi
        db_cpp_clawback_fraction := a.spouse_db_cpp_clawback_fraction
        db_survivor_benefit_percentage := a.spouse_db_survivor_benefit_percentage
        pension_plan_type := a.spouse_pension_plan_type
        has_10_year_guarantee := a.spouse_has_10_year_guarantee
        has_supplementary_death_benefit := a.spouse_has_supplementary_death_benefit
        db_share_to_spouse := a.spouse_db_share_to_spouse
        db_is_survivor_pension := a.spouse_db_is_survivor_pension
        enable_rrsp_meltdown := a.spouse_enable_rrsp_meltdown
        lif_conversion_age := a.spouse_lif_conversion_age
        rrif_conversion_age := a.spouse_rrif_conversion_age
        lif_type := a.spouse_lif_type
        non_registered_growth_capital_gains_pct := a.spouse_non_registered_growth_capital_gains_pct
        non_registered_dividend_yield_pct := a.spouse_non_registered_dividend_yield_pct
        non_registered_eligible_dividend_proportion_pct := a.spouse_non_registered_eligible_dividend_proportion_pct
        rrsp_contribution := a.spouse_rrsp_contribution
        tfsa_contribution := a.spouse_tfsa_contribution
        non_registered_contribution := a.spouse_non_registered_contribution
        additional_events := a.spouse_additional_events }
    inputs :=
      { expected_returns := a.expected_returns
        cpi := a.cpi
        province := a.province
        individual := !is_couple
        income_split := final_income_split
        rrif_min_withdrawal := false
        allocation := a.allocation
        base_tfsa_amount := a.base_tfsa_amount
        survivor_expense_percent := a.survivor_expense_percent
        expense_phases := a.expense_phases }
    withdrawal_strategy :=
      { person1_order := ["rrsp", "non_registered", "tfsa"]
        person2_order := ["rrsp", "non_registered", "tfsa"] } }

/-- The payloads POSTed by the two synchronous tools are exactly the output
of `construct_payload` (src/server.py lines 479-500 and 694-715). -/
def calculate_sustainable_spend_payload (a : CPArgs) : Payload :=
  construct_payload a

/-- See `calculate_sustainable_spend_payload`. -/
def calculate_detailed_spend_plan_payload (a : CPArgs) : Payload :=
  construct_payload a

/-- The `inputs` block as mutated by `start_monte_carlo_simulation`
(src/server.py lines 917-922): five keys added or overwritten on top of the
block built by `construct_payload`. -/
structure MCInputs where
  expected_returns : ℚ
  cpi : ℚ
  province : String
  individual : Bool
  income_split : Bool
  rrif_min_withdrawal : Bool
  allocation : ℚ
  base_tfsa_amount : ℚ
  survivor_expense_percent : ℚ
  expense_phases : Option (List JVal)
  num_trials : Int
  return_std_dev : ℚ
  cpi_std_dev : ℚ
  return_cpi_correlation : ℚ

/-- The request document POSTed to `/monte-carlo`: the `construct_payload`
output with a top-level `target_monthly_spend` key and the mutated `inputs`
block. -/
structure MCPayload where
  person1_ui : Person1UI
  person2_ui : Person2UI
  inputs : MCInputs
  withdrawal_strategy : WithdrawalStrategy
  target_monthly_spend : ℚ

/-- Payload assembly of `start_monte_carlo_simulation` (src/server.py lines
893-922): build `construct_payload`, then set `target_monthly_spend`,
`inputs.num_trials`, `inputs.expected_returns := expected_returns / 100`,
`inputs.cpi := cpi / 100`, and the three volatility inputs. -/
def start_monte_carlo_simulation_payload (a : CPArgs)
    (target_monthly_spend : ℚ) (num_trials : Int)
    (return_std_dev cpi_std_dev return_cpi_correlation : ℚ) : MCPayload :=
  let base := construct_payload a
  { person1_ui := base.person1_ui
    person2_ui := base.person2_ui
    inputs :=
      { expected_returns := a.expected_returns / 100
        cpi := a.cpi / 100
        province := base.inputs.province
        individual := base.inputs.individual
        income_split := base.inputs.income_split
        rrif_min_withdrawal := base.inputs.rrif_min_withdrawal
        allocation := base.inputs.allocation
        base_tfsa_amount := base.inputs.base_tfsa_amount
        survivor_expense_percent := base.inputs.survivor_expense_percent
        expense_phases := base.inputs.expense_phases
        num_trials := num_trials
        return_std_dev := return_std_dev
        cpi_std_dev := cpi_std_dev
        return_cpi_correlation := return_cpi_correlation }
    withdrawal_strategy := base.withdrawal_strategy
    target_monthly_spend := target_monthly_spend }

/-- Outcome of the single synchronous `requests.post` as observed by the
tool: either an HTTP response (status code, reason phrase, decoded JSON
body) or a raised network/decoding exception with its `str(e)` text. -/
inductive CallOutcome where
  | response (status : Nat) (reason : String) (body : JVal)
  | netError (msg : String)

/-- The exception text produced by `requests.Response.raise_for_status` for
a non-success status: `"{code} Client Error: {reason} for url: {url}"` for
4xx, `"{code} Server Error: {reason} for url: {url}"` for 5xx and above. -/
def http_error_message (code : Nat) (reason url : String) : String :=
  if code < 500 then
    toString code ++ " Client Error: " ++ reason ++ " for url: " ++ url
  else
    toString code ++ " Server Error: " ++ reason ++ " for url: " ++ url

/-- Results returned by the synchronous tools, keeping the fields the error
claims are about.  `spendOk` abstracts the success dictionary (its narrative
text is presentational); `errorRes` is the `{"error": msg}` dictionary. -/
inductive ToolResult where
  | spendOk (max_monthly : ℚ)
  | errorRes (msg : String)
deriving DecidableEq

/-- `data.get("max_spend_monthly", 0.0)` on the decoded body: a non-dict
body raises `AttributeError` inside the `try`, landing in the generic
handler; that case is signalled by `none` here. -/
def jGetNumOr (j : JVal) (key : String) (dflt : ℚ) : Option ℚ :=
  match j with
  | JVal.jobj kvs =>
    match jlookup kvs key with
    | some (JVal.jnum q) => some q
    | some _ => some dflt
    | none => some dflt
  | _ => none

/-- `calculate_sustainable_spend` (src/server.py lines 471-513) restricted
to its control flow: key and URL precondition checks, then the single POST
with the mapping of exceptions to `{"error": "Request Failed: ..."}`.
An HTTP status of 400 or above is raised by `raise_for_status` and caught by
the same generic handler as any network exception. -/
def calculate_sustainable_spend (apiKey apiUrl : Option String)
    (outcome : CallOutcome) : ToolResult :=
  if pyFalsyOptStr apiKey then
    ToolResult.errorRes "Authentication Failed. Please provide your user_api_key as an argument."
  else if pyFalsyOptStr apiUrl then
    ToolResult.errorRes "API URL missing. Please set the NOWCAPITAL_API_BASE_URL environment variable."
  else
    let url := (apiUrl.getD "") ++ "/calculate-max-spend"
    match outcome with
    | CallOutcome.netError m => ToolResult.errorRes ("Request Failed: " ++ m)
    | CallOutcome.response code reason body =>
      if 400 ≤ code then
        ToolResult.errorRes ("Request Failed: " ++ http_error_message code reason url)
      else
        match jGetNumOr body "max_spend_monthly" 0 with
        | some q => ToolResult.spendOk q
        | none => ToolResult.errorRes ("Request Failed: " ++ attributeErrorText)

/-- `calculate_detailed_spend_plan` (src/server.py lines 686-732), same
control flow as `calculate_sustainable_spend` with its shorter precondition
messages and endpoint; the success branch is abstracted to the
`max_spend_monthly` figure (the CSV rendering is presentational). -/
def calculate_detailed_spend_plan (apiKey apiUrl : Option String)
    (outcome : CallOutcome) : ToolResult :=
  if pyFalsyOptStr apiKey then
    ToolResult.errorRes "Authentication Failed."
  else if pyFalsyOptStr apiUrl then
    ToolResult.errorRes "API URL missing."
  else
    let url := (apiUrl.getD "") ++ "/calculate-max-spend-with-yearly-data"
    match outcome with
    | CallOutcome.netError m => ToolResult.errorRes ("Request Failed: " ++ m)
    | CallOutcome.response code reason body =>
      if 400 ≤ code then
        ToolResult.errorRes ("Request Failed: " ++ http_error_message code reason url)
      else
        match jGetNumOr body "max_spend_monthly" 0 with
        | some q => ToolResult.spendOk q
        | none => ToolResult.errorRes ("Request Failed: " ++ attributeErrorText)

/-- The default argument values of `calculate_sustainable_spend`
(src/server.py lines 302-392), with the two required arguments set to the
documented examples (`current_age=60`, `retirement_age=65`).  Used to build
concrete inputs for witnesses. -/
def defaultArgs : CPArgs where
  current_age := 60
  retirement_age := 65
  province := "ON"
  total_savings := 0
  savings_rrsp := 0
  savings_tfsa := 0
  savings_non_reg := 0
  name := "User"
  death_age := 92
  non_reg_acb := none
  lira := 0
  tfsa_contribution_room := 0
  rrsp_contribution_room := 0
  cpp_start_age := 65
  oas_start_age := 65
  base_cpp_amount := 17196
  base_oas_amount := 8876
  db_enabled := false
  db_pension_income := 0
  db_start_age := 65
  db_index_before_retirement := true
  db_index_after_retirement := 0
  enable_rrsp_meltdown := false
  lif_conversion_age := 71
  rrif_conversion_age := 71
  lif_type := 1
  db_index_after_retirement_to_cpi := false
  db_cpp_clawback_fraction := 0
  db_survivor_benefit_percentage := 0
  pension_plan_type := "Generic"
  has_10_year_guarantee := false
  has_supplementary_death_benefit := false
  db_share_to_spouse := 0
  db_is_survivor_pension := false
  rrsp_contribution := 0
  tfsa_contribution := 0
  non_registered_contribution := 0
  non_registered_growth_capital_gains_pct := 100
  non_registered_dividend_yield_pct := 0
  non_registered_eligible_dividend_proportion_pct := 0
  additional_events := none
  spouse_name := "Spouse"
  spouse_age := none
  spouse_retirement_age := none
  spouse_death_age := 92
  spouse_total_savings := 0
  spouse_savings_rrsp := 0
  spouse_savings_tfsa := 0
  spouse_savings_non_reg := 0
  spouse_non_reg_acb := none
  spouse_lira := 0
  spouse_tfsa_contribution_room := 0
  spouse_rrsp_contribution_room := 0
  spouse_cpp_start_age := 65
  spouse_oas_start_age := 65
  spouse_base_cpp_amount := 0
  spouse_base_oas_amount := 8876
  spouse_db_enabled := false
  spouse_db_pension_income := 0
  spouse_db_start_age := 65
  spouse_db_index_before_retirement := true
  spouse_db_index_after_retirement := 0
  spouse_enable_rrsp_meltdown := false
  spouse_lif_conversion_age := 71
  spouse_rrif_conversion_age := 71
  spouse_lif_type := 1
  spouse_db_index_after_retirement_to_cpi := false
  spouse_db_cpp_clawback_fraction := 0
  spouse_db_survivor_benefit_percentage := 0
  spouse_pension_plan_type := "Generic"
  spouse_has_10_year_guarantee := false
  spouse_has_supplementary_death_benefit := false
  spouse_db_share_to_spouse := 0
  spouse_db_is_survivor_pension := false
  spouse_rrsp_contribution := 0
  spouse_tfsa_contribution := 0
  spouse_non_registered_contribution := 0
  spouse_non_registered_growth_capital_gains_pct := 100
  spouse_non_registered_dividend_yield_pct := 0
  spouse_non_registered_eligible_dividend_proportion_pct := 0
  spouse_additional_events := none
  income_split := none
  expected_returns := 4.5
  cpi := 2.3
  allocation := 50
  base_tfsa_amount := 7000
  survivor_expense_percent := 100
  expense_phases := none
  enable_belt_tightening := false

/-- C4: if the three itemized amounts sum to zero and total savings is
positive, `distribute_savings` yields exactly 50% / 20% / 30% of the total
(and those shares sum to the total); if the itemized amounts do not sum to
zero they pass through unchanged whatever the total; `construct_payload`
stores exactly this split as person 1's account balances; and
`total_savings = 500000` with zero itemized amounts yields
(250000, 100000, 150000). -/
theorem savings_split_fifty_twenty_thirty :
    (∀ total r t n : ℚ, r + t + n = 0 → total > 0 →
      distribute_savings total r t n = (total * 0.50, total * 0.20, total * 0.30) ∧
      total * 0.50 + total * 0.20 + total * 0.30 = total) ∧
    (∀ total r t n : ℚ, r + t + n ≠ 0 →
      distribute_savings total r t n = (r, t, n)) ∧
    (∀ a : CPArgs,
      ((construct_payload a).person1_ui.rrsp, (construct_payload a).person1_ui.tfsa,
        (construct_payload a).person1_ui.non_registered) =
      distribute_savings a.total_savings a.savings_rrsp a.savings_tfsa a.savings_non_reg) ∧
    distribute_savings 500000 0 0 0 = (250000, 100000, 150000) := by
  refine ⟨?_, ?_, ?_, ?_⟩
  · intro total r t n h hpos
    refine ⟨by simp [distribute_savings, h, hpos], by ring_nf⟩
  · intro total r t n h
    simp [distribute_savings, h]
  · intro a
    rfl
  · norm_num [distribute_savings]

/-- Witness for C4 at the documented concrete input. -/
theorem savings_split_fifty_twenty_thirty_witness :
    distribute_savings 500000 0 0 0 = (500000 * 0.50, 500000 * 0.20, 500000 * 0.30) :=
  (savings_split_fifty_twenty_thirty.1 500000 0 0 0 (by norm_num) (by norm_num)).1

/-- C5: the request is in couple mode (`inputs.individual` false) exactly
when `spouse_age` is supplied — no other field enters the decision — and
without a spouse age, person 2's government-benefit amounts are zero
whatever spouse benefit values were supplied. -/
theorem couple_mode_iff_spouse_age :
    ∀ a : CPArgs,
      ((construct_payload a).inputs.individual = false ↔ a.spouse_age.isSome = true) ∧
      (construct_payload { a with spouse_age := none }).person2_ui.base_cpp_amount = 0 ∧
      (construct_payload { a with spouse_age := none }).person2_ui.base_oas_amount = 0 := by
  intro a
  refine ⟨?_, rfl, rfl⟩
  cases h : a.spouse_age <;> simp [construct_payload, h]

/-- C6: for each person, the `cost_basis` field equals the explicit
adjusted cost base whenever one is supplied (any value, including 0 and
negatives); otherwise it is 90% of that person's post-normalization
non-registered balance when that is positive, and 0 otherwise.  Person 1
resolves from `non_reg_acb` (src/server.py lines 158-162), person 2 from
`spouse_non_reg_acb` (lines 171-174), independently of couple mode. -/
theorem cost_basis_resolution :
    ∀ (a : CPArgs) (c : ℚ),
      (construct_payload { a with non_reg_acb := some c }).person1_ui.cost_basis = c ∧
      ((construct_payload { a with non_reg_acb := none }).person1_ui.cost_basis =
        if (construct_payload { a with non_reg_acb := none }).person1_ui.non_registered > 0
        then (construct_payload { a with non_reg_acb := none }).person1_ui.non_registered * 0.9
        else 0) ∧
      (construct_payload { a with spouse_non_reg_acb := some c }).person2_ui.cost_basis = c ∧
      ((construct_payload { a with spouse_non_reg_acb := none }).person2_ui.cost_basis =
        if (construct_payload { a with spouse_non_reg_acb := none }).person2_ui.non_registered > 0
        then (construct_payload { a with spouse_non_reg_acb := none }).person2_ui.non_registered * 0.9
        else 0) := by
  intro a c
  exact ⟨rfl, rfl, rfl, rfl⟩

/-- C7: the `/monte-carlo` payload carries `inputs.expected_returns` and
`inputs.cpi` divided by 100 (fractional units), while the payloads of the
two synchronous tools carry the supplied percentage figures unchanged. -/
theorem risk_endpoint_unit_conversion :
    ∀ (a : CPArgs) (tms : ℚ) (nt : Int) (rsd csd rcc : ℚ),
      (start_monte_carlo_simulation_payload a tms nt rsd csd rcc).inputs.expected_returns =
        a.expected_returns / 100 ∧
      (start_monte_carlo_simulation_payload a tms nt rsd csd rcc).inputs.cpi = a.cpi / 100 ∧
      (calculate_sustainable_spend_payload a).inputs.expected_returns = a.expected_returns ∧
      (calculate_sustainable_spend_payload a).inputs.cpi = a.cpi ∧
      (calculate_detailed_spend_plan_payload a).inputs.expected_returns = a.expected_returns ∧
      (calculate_detailed_spend_plan_payload a).inputs.cpi = a.cpi := by
  intro a tms nt rsd csd rcc
  exact ⟨rfl, rfl, rfl, rfl, rfl, rfl⟩

/-- C10: a `spouse_retirement_age` supplied as 0 is treated by Python
truthiness exactly like an omitted one: person 2's retirement age falls
back to person 1's, and in fact the whole payload coincides with the
omitted-case payload. -/
theorem spouse_retirement_age_falsy_fallback :
    ∀ a : CPArgs,
      (construct_payload { a with spouse_retirement_age := some 0 }).person2_ui.retirement_age =
        a.retirement_age ∧
      construct_payload { a with spouse_retirement_age := some 0 } =
        construct_payload { a with spouse_retirement_age := none } := by
  intro a
  exact ⟨rfl, rfl⟩

/-- C9: with `spouse_age` omitted (individual mode), every person 2 payload
field that has a spouse-prefixed input still carries the supplied spouse
value — the spouse savings (split 50/20/30 from a lump sum when itemized
amounts are zero) become person 2's balances, the cost basis follows the
spouse inputs, and all defined-benefit pension fields pass through — while
only the two government-benefit amounts are forced to zero. -/
theorem individual_mode_spouse_fields_pass_through :
    ∀ a : CPArgs,
      letI p2 := (construct_payload { a with spouse_age := none }).person2_ui
      (p2.rrsp, p2.tfsa, p2.non_registered) =
        distribute_savings a.spouse_total_savings a.spouse_savings_rrsp
          a.spouse_savings_tfsa a.spouse_savings_non_reg ∧
      (p2.cost_basis =
        match a.spouse_non_reg_acb with
        | some acb => acb
        | none => if p2.non_registered > 0 then p2.non_registered * 0.9 else 0) ∧
      p2.name = a.spouse_name ∧
      p2.death_age = a.spouse_death_age ∧
      p2.lira = a.spouse_lira ∧
      p2.rrsp_contribution_room = a.spouse_rrsp_contribution_room ∧
      p2.tfsa_contribution_room = a.spouse_tfsa_contribution_room ∧
      p2.cpp_start_age = a.spouse_cpp_start_age ∧
      p2.oas_start_age = a.spouse_oas_start_age ∧
      p2.db_enabled = a.spouse_db_enabled ∧
      p2.db_pension_income = a.spouse_db_pension_income ∧
      p2.db_start_age = a.spouse_db_start_age ∧
      p2.db_index_before_retirement = a.spouse_db_index_before_retirement ∧
      p2.db_index_after_retirement = a.spouse_db_index_after_retirement ∧
      p2.db_index_after_retirement_to_cpi = a.spouse_db_index_after_retirement_to_cpi ∧
      p2.db_cpp_clawback_fraction = a.spouse_db_cpp_clawback_fraction ∧
      p2.db_survivor_benefit_percentage = a.spouse_db_survivor_benefit_percentage ∧
      p2.pension_plan_type = a.spouse_pension_plan_type ∧
      p2.has_10_year_guarantee = a.spouse_has_10_year_guarantee ∧
      p2.has_supplementary_death_benefit = a.spouse_has_supplementary_death_benefit ∧
      p2.db_share_to_spouse = a.spouse_db_share_to_spouse ∧
      p2.db_is_survivor_pension = a.spouse_db_is_survivor_pension ∧
      p2.enable_rrsp_meltdown = a.spouse_enable_rrsp_meltdown ∧
      p2.lif_conversion_age = a.spouse_lif_conversion_age ∧
      p2.rrif_conversion_age = a.spouse_rrif_conversion_age ∧
      p2.lif_type = a.spouse_lif_type ∧
      p2.non_registered_growth_capital_gains_pct =
        a.spouse_non_registered_growth_capital_gains_pct ∧
      p2.non_registered_dividend_yield_pct = a.spouse_non_registered_dividend_yield_pct ∧
      p2.non_registered_eligible_dividend_proportion_pct =
        a.spouse_non_registered_eligible_dividend_proportion_pct ∧
      p2.rrsp_contribution = a.spouse_rrsp_contribution ∧
      p2.tfsa_contribution = a.spouse_tfsa_contribution ∧
      p2.non_registered_contribution = a.spouse_non_registered_contribution ∧
      p2.additional_events = a.spouse_additional_events ∧
      p2.base_cpp_amount = 0 ∧
      p2.base_oas_amount = 0 := by
  intro a
  exact ⟨rfl, rfl, rfl, rfl, rfl, rfl, rfl, rfl, rfl, rfl, rfl, rfl, rfl, rfl, rfl, rfl,
    rfl, rfl, rfl, rfl, rfl, rfl, rfl, rfl, rfl, rfl, rfl, rfl, rfl, rfl, rfl, rfl, rfl,
    rfl, rfl⟩

/-- Counterexample to C8: the generic `except` handler maps an HTTP 403
(raised by `raise_for_status`) and a plain network exception carrying the
same message text to the *identical* error result, so the 403 result is not
distinguishable from every generic failure. -/
theorem http403_indistinguishable_from_network_error :
    calculate_sustainable_spend (some "key") (some "http://api")
        (CallOutcome.response 403 "Forbidden" JVal.jnull) =
      calculate_sustainable_spend (some "key") (some "http://api")
        (CallOutcome.netError
          "403 Client Error: Forbidden for url: http://api/calculate-max-spend") := by
  rfl

/-- C8 as amended: the missing-key precondition failure is classified
distinctly — it is decided before any call is attempted (the result ignores
the call outcome) and differs from every `Request Failed` result — but an
HTTP 403 flows through the same generic handler as every other non-success
status or network exception: its result differs from another status code's
result only through the status text embedded in the message (403 vs 500
shown concretely), and coincides with a network exception whose message is
the same status line. -/
theorem sync_error_classification :
    (∀ (u : Option String) (o1 o2 : CallOutcome),
      calculate_sustainable_spend none u o1 = calculate_sustainable_spend none u o2) ∧
    (∀ (u : Option String) (o1 o2 : CallOutcome),
      calculate_detailed_spend_plan none u o1 = calculate_detailed_spend_plan none u o2) ∧
    (∀ (m : String) (o : CallOutcome),
      calculate_sustainable_spend none (some "http://api") o ≠
        calculate_sustainable_spend (some "key") (some "http://api") (CallOutcome.netError m)) ∧
    (∀ (m : String) (o : CallOutcome),
      calculate_detailed_spend_plan none (some "http://api") o ≠
        calculate_detailed_spend_plan (some "key") (some "http://api") (CallOutcome.netError m)) ∧
    calculate_sustainable_spend (some "key") (some "http://api")
        (CallOutcome.response 403 "Forbidden" JVal.jnull) ≠
      calculate_sustainable_spend (some "key") (some "http://api")
        (CallOutcome.response 500 "Internal Server Error" JVal.jnull) ∧
    calculate_sustainable_spend (some "key") (some "http://api")
        (CallOutcome.response 403 "Forbidden" JVal.jnull) =
      calculate_sustainable_spend (some "key") (some "http://api")
        (CallOutcome.netError
          "403 Client Error: Forbidden for url: http://api/calculate-max-spend") := by
  refine ⟨fun u o1 o2 => rfl, fun u o1 o2 => rfl, ?_, ?_, ?_, rfl⟩
  · intro m o h
    have h0 := congrArg
      (fun r : ToolResult => match r with | ToolResult.errorRes s => s.data.head? | _ => none) h
    simp only [calculate_sustainable_spend, pyFalsyOptStr, String.data_append] at h0
    simp at h0
  · intro m o h
    have h0 := congrArg
      (fun r : ToolResult => match r with | ToolResult.errorRes s => s.data.head? | _ => none) h
    simp only [calculate_detailed_spend_plan, pyFalsyOptStr, String.data_append] at h0
    simp at h0
  · decide

/-- A status body the loop treats as still-running: a JSON object whose
`status` field is neither `"SUCCESS"` nor `"FAILURE"`. -/
def nonTerminalBody (j : JVal) : Prop :=
  ∃ kvs, j = JVal.jobj kvs ∧
    jvalIsStr (jlookup kvs "status") "SUCCESS" = false ∧
    jvalIsStr (jlookup kvs "status") "FAILURE" = false

/-- A status body reporting `SUCCESS`. -/
def successBody (j : JVal) : Prop :=
  ∃ kvs, j = JVal.jobj kvs ∧ jvalIsStr (jlookup kvs "status") "SUCCESS" = true

lemma pollLoop_step_nonterminal {σ} (B : Backend σ) (n : Nat) (s s1 : σ)
    (cur : JVal) (kvs : List (String × JVal))
    (h : B.statusReq s cur = (Except.ok (JVal.jobj kvs), s1))
    (hS : jvalIsStr (jlookup kvs "status") "SUCCESS" = false)
    (hF : jvalIsStr (jlookup kvs "status") "FAILURE" = false) :
    pollLoop B (n + 1) s cur =
      ((pollLoop B n s1 cur).1, (pollLoop B n s1 cur).2.1,
        Req.statusGet cur :: (pollLoop B n s1 cur).2.2) := by
  simp only [pollLoop, h, hS, hF]
  rfl

lemma pollLoop_step_success {σ} (B : Backend σ) (n : Nat) (s s1 : σ)
    (cur : JVal) (kvs : List (String × JVal))
    (h : B.statusReq s cur = (Except.ok (JVal.jobj kvs), s1))
    (hS : jvalIsStr (jlookup kvs "status") "SUCCESS" = true) :
    pollLoop B (n + 1) s cur =
      match B.resultReq s1 cur with
      | (Except.error e, s2) =>
          (PollOutcome.errorRes (pollingError e), s2,
            [Req.statusGet cur, Req.resultGet cur])
      | (Except.ok body, s2) =>
        if isRedirect body then
          ((pollLoop B n s2 (redirectTarget body)).1,
            (pollLoop B n s2 (redirectTarget body)).2.1,
            Req.statusGet cur :: Req.resultGet cur ::
              (pollLoop B n s2 (redirectTarget body)).2.2)
        else
          (PollOutcome.success body, s2, [Req.statusGet cur, Req.resultGet cur]) := by
  simp only [pollLoop, h, hS]
  rfl

lemma pollLoop_all_nonterminal {σ} (B : Backend σ)
    (H : ∀ (st : σ) (id : JVal), ∃ kvs,
      (B.statusReq st id).1 = Except.ok (JVal.jobj kvs) ∧
      jvalIsStr (jlookup kvs "status") "SUCCESS" = false ∧
      jvalIsStr (jlookup kvs "status") "FAILURE" = false) :
    ∀ (n : Nat) (s : σ) (cur : JVal),
      (pollLoop B n s cur).1 = PollOutcome.processing cur ∧
      (pollLoop B n s cur).2.2 = List.replicate n (Req.statusGet cur) := by
  intro n
  induction n with
  | zero => intro s cur; exact ⟨rfl, rfl⟩
  | succ n ih =>
    intro s cur
    obtain ⟨kvs, hk, hS, hF⟩ := H s cur
    have h : B.statusReq s cur = (Except.ok (JVal.jobj kvs), (B.statusReq s cur).2) := by
      rw [← hk]
    rw [pollLoop_step_nonterminal B n s (B.statusReq s cur).2 cur kvs h hS hF]
    refine ⟨(ih (B.statusReq s cur).2 cur).1, ?_⟩
    rw [List.replicate_succ]
    exact congrArg _ (ih (B.statusReq s cur).2 cur).2

/-- C2: against a backend whose status endpoint never reports `SUCCESS` or
`FAILURE` and never raises, `get_monte_carlo_results` issues exactly its
fixed budget of 15 status checks (and nothing else) and returns the
`PROCESSING` result carrying the currently tracked identifier — here the
identifier passed in, since no redirect can occur without a `SUCCESS`. -/
theorem monte_carlo_attempt_budget_exhaustion {σ} (B : Backend σ) (s : σ)
    (k u jid : String) (hk : k ≠ "") (hu : u ≠ "")
    (H : ∀ (st : σ) (id : JVal), ∃ kvs,
      (B.statusReq st id).1 = Except.ok (JVal.jobj kvs) ∧
      jvalIsStr (jlookup kvs "status") "SUCCESS" = false ∧
      jvalIsStr (jlookup kvs "status") "FAILURE" = false) :
    (get_monte_carlo_results B s (some k) (some u) jid).1 =
      PollOutcome.processing (JVal.jstr jid) ∧
    (get_monte_carlo_results B s (some k) (some u) jid).2.2 =
      List.replicate 15 (Req.statusGet (JVal.jstr jid)) := by
  unfold get_monte_carlo_results
  simp only [pyFalsyOptStr, hk, decide_eq_true_eq, if_neg, if_false, hu]
  exact pollLoop_all_nonterminal B H 15 s (JVal.jstr jid)

/-- A backend that always answers `{"status": "PROCESSING"}`, for the
budget-exhaustion witness. -/
def alwaysProcessingBackend : Backend Unit where
  statusReq := fun _ _ => (Except.ok (JVal.jobj [("status", JVal.jstr "PROCESSING")]), ())
  resultReq := fun _ _ => (Except.ok JVal.jnull, ())

/-- Witness for C2 on a concrete never-terminating backend. -/
theorem monte_carlo_attempt_budget_exhaustion_witness :
    (get_monte_carlo_results alwaysProcessingBackend () (some "key") (some "http://api") "job-1").1 =
      PollOutcome.processing (JVal.jstr "job-1") ∧
    (get_monte_carlo_results alwaysProcessingBackend () (some "key") (some "http://api") "job-1").2.2 =
      List.replicate 15 (Req.statusGet (JVal.jstr "job-1")) :=
  monte_carlo_attempt_budget_exhaustion alwaysProcessingBackend () "key" "http://api" "job-1"
    (by decide) (by decide)
    (fun _ _ => ⟨[("status", JVal.jstr "PROCESSING")], rfl, rfl, rfl⟩)

/-- A scripted backend for the poll-count scenario: its state counts the
non-terminal status responses still to be served; once it reaches zero the
status endpoint reports `succBody` and the result endpoint serves `res`
(left entirely unconstrained). -/
def statusScript (p : Nat → JVal) (succBody : JVal) (res : Except String JVal) :
    Backend Nat where
  statusReq := fun r _ => (Except.ok (if r = 0 then succBody else p r), r - 1)
  resultReq := fun r _ => (res, r)

lemma statusScript_run (p : Nat → JVal) (succ : JVal) (res : Except String JVal)
    (hp : ∀ i, nonTerminalBody (p i)) (hs : successBody succ) :
    ∀ (N n : Nat) (cur : JVal), N + 1 ≤ n →
      ∃ tail, (pollLoop (statusScript p succ res) n N cur).2.2 =
        List.replicate (N + 1) (Req.statusGet cur) ++ Req.resultGet cur :: tail := by
  intro N
  induction N with
  | zero =>
    intro n cur hn
    obtain ⟨m, rfl⟩ : ∃ m, n = m + 1 := ⟨n - 1, by omega⟩
    obtain ⟨kvs, hkvs, hS⟩ := hs
    have h : (statusScript p succ res).statusReq 0 cur = (Except.ok (JVal.jobj kvs), 0) := by
      simp [statusScript, hkvs]
    rw [pollLoop_step_success (statusScript p succ res) m 0 0 cur kvs h hS]
    rcases res with e | body
    · exact ⟨[], by simp [statusScript]⟩
    · by_cases hb : isRedirect body
      · refine ⟨(pollLoop (statusScript p succ (Except.ok body)) m 0
          (redirectTarget body)).2.2, ?_⟩
        simp [statusScript, hb]
      · exact ⟨[], by simp [statusScript, hb]⟩
  | succ N ih =>
    intro n cur hn
    obtain ⟨m, rfl⟩ : ∃ m, n = m + 1 := ⟨n - 1, by omega⟩
    obtain ⟨kvs, hkvs, hS, hF⟩ := hp (N + 1)
    have h : (statusScript p succ res).statusReq (N + 1) cur =
        (Except.ok (JVal.jobj kvs), N) := by
      simp [statusScript, hkvs]
    rw [pollLoop_step_nonterminal (statusScript p succ res) m (N + 1) N cur kvs h hS hF]
    obtain ⟨tail, htail⟩ := ih m cur (by omega)
    refine ⟨tail, ?_⟩
    simp only [htail, List.replicate_succ, List.cons_append]

/-- C3: for 0 ≤ N ≤ 14, against a scripted backend returning a non-terminal
status for the first N checks and `SUCCESS` on check N+1,
`get_monte_carlo_results` issues exactly N+1 status requests — no more, no
fewer — before its first request to the result endpoint (whatever the
result endpoint then returns). -/
theorem monte_carlo_poll_count (N : Nat) (hN : N ≤ 14)
    (p : Nat → JVal) (succ : JVal) (res : Except String JVal)
    (hp : ∀ i, nonTerminalBody (p i)) (hs : successBody succ)
    (k u jid : String) (hk : k ≠ "") (hu : u ≠ "") :
    ∃ tail,
      (get_monte_carlo_results (statusScript p succ res) N (some k) (some u) jid).2.2 =
        List.replicate (N + 1) (Req.statusGet (JVal.jstr jid)) ++
          Req.resultGet (JVal.jstr jid) :: tail := by
  unfold get_monte_carlo_results
  simp only [pyFalsyOptStr, hk, decide_eq_true_eq, if_neg, if_false, hu]
  exact statusScript_run p succ res hp hs N 15 (JVal.jstr jid) (by omega)

/-- Witness for C3: N = 2 still-running responses, then `SUCCESS`; the loop
issues 3 status requests and then fetches the result. -/
theorem monte_carlo_poll_count_witness :
    ∃ tail,
      (get_monte_carlo_results
          (statusScript (fun _ => JVal.jobj [("status", JVal.jstr "PENDING")])
            (JVal.jobj [("status", JVal.jstr "SUCCESS")])
            (Except.ok (JVal.jobj [("probability_of_success", JVal.jnum 95)])))
          2 (some "key") (some "http://api") "job-1").2.2 =
        List.replicate 3 (Req.statusGet (JVal.jstr "job-1")) ++
          Req.resultGet (JVal.jstr "job-1") :: tail :=
  monte_carlo_poll_count 2 (by omega)
    (fun _ => JVal.jobj [("status", JVal.jstr "PENDING")])
    (JVal.jobj [("status", JVal.jstr "SUCCESS")])
    (Except.ok (JVal.jobj [("probability_of_success", JVal.jnum 95)]))
    (fun _ => ⟨[("status", JVal.jstr "PENDING")], rfl, rfl, rfl⟩)
    ⟨[("status", JVal.jstr "SUCCESS")], rfl, rfl⟩
    "key" "http://api" "job-1" (by decide) (by decide)

/-- A scripted backend for the redirect scenario.  The state counts the
non-terminal status responses still to be served for the original
identifier (first component) and for every other identifier (second
component).  The result endpoint serves `redirectBody` for the original
identifier and `finalBody` for any other. -/
def redirectScript (origId : String) (p q : Nat → JVal)
    (succ1 succ2 redirectBody finalBody : JVal) : Backend (Nat × Nat) where
  statusReq := fun st id =>
    if jvalEqStr id origId then
      (Except.ok (if st.1 = 0 then succ1 else p st.1), (st.1 - 1, st.2))
    else
      (Except.ok (if st.2 = 0 then succ2 else q st.2), (st.1, st.2 - 1))
  resultReq := fun st id =>
    (Except.ok (if jvalEqStr id origId then redirectBody else finalBody), st)

lemma redirectScript_phase2 (origId newId : String) (p q : Nat → JVal)
    (succ1 succ2 redirectBody finalBody : JVal)
    (hq : ∀ i, nonTerminalBody (q i)) (hs2 : successBody succ2)
    (hfin : isRedirect finalBody = false) (hne : newId ≠ origId) :
    ∀ (N2 n r1 : Nat), N2 + 1 ≤ n →
      pollLoop (redirectScript origId p q succ1 succ2 redirectBody finalBody)
          n (r1, N2) (JVal.jstr newId) =
        (PollOutcome.success finalBody, (r1, 0),
          List.replicate (N2 + 1) (Req.statusGet (JVal.jstr newId)) ++
            [Req.resultGet (JVal.jstr newId)]) := by
  intro N2
  set B := redirectScript origId p q succ1 succ2 redirectBody finalBody with hB
  induction N2 with
  | zero =>
    intro n r1 hn
    obtain ⟨m, rfl⟩ : ∃ m, n = m + 1 := ⟨n - 1, by omega⟩
    obtain ⟨kvs, hkvs, hS⟩ := hs2
    have h : B.statusReq (r1, 0) (JVal.jstr newId) = (Except.ok (JVal.jobj kvs), (r1, 0)) := by
      simp [hB, redirectScript, jvalEqStr, hne, hkvs]
    rw [pollLoop_step_success B m (r1, 0) (r1, 0) (JVal.jstr newId) kvs h hS]
    have hr : B.resultReq (r1, 0) (JVal.jstr newId) = (Except.ok finalBody, (r1, 0)) := by
      simp [hB, redirectScript, jvalEqStr, hne]
    rw [hr]
    simp [hfin]
  | succ N2 ih =>
    intro n r1 hn
    obtain ⟨m, rfl⟩ : ∃ m, n = m + 1 := ⟨n - 1, by omega⟩
    obtain ⟨kvs, hkvs, hS, hF⟩ := hq (N2 + 1)
    have h : B.statusReq (r1, N2 + 1) (JVal.jstr newId) =
        (Except.ok (JVal.jobj kvs), (r1, N2)) := by
      simp [hB, redirectScript, jvalEqStr, hne, hkvs]
    rw [pollLoop_step_nonterminal B m (r1, N2 + 1) (r1, N2) (JVal.jstr newId) kvs h hS hF]
    rw [ih m r1 (by omega)]
    simp [List.replicate_succ]

lemma redirectScript_phase1 (origId newId : String) (p q : Nat → JVal)
    (succ1 succ2 redirectBody finalBody : JVal)
    (hp : ∀ i, nonTerminalBody (p i)) (hq : ∀ i, nonTerminalBody (q i))
    (hs1 : successBody succ1) (hs2 : successBody succ2)
    (hred : isRedirect redirectBody = true)
    (htgt : redirectTarget redirectBody = JVal.jstr newId)
    (hfin : isRedirect finalBody = false) (hne : newId ≠ origId) :
    ∀ (N1 N2 n : Nat), N1 + N2 + 2 ≤ n →
      pollLoop (redirectScript origId p q succ1 succ2 redirectBody finalBody)
          n (N1, N2) (JVal.jstr origId) =
        (PollOutcome.success finalBody, (0, 0),
          List.replicate (N1 + 1) (Req.statusGet (JVal.jstr origId)) ++
            Req.resultGet (JVal.jstr origId) ::
              (List.replicate (N2 + 1) (Req.statusGet (JVal.jstr newId)) ++
                [Req.resultGet (JVal.jstr newId)])) := by
  intro N1
  set B := redirectScript origId p q succ1 succ2 redirectBody finalBody with hB
  induction N1 with
  | zero =>
    intro N2 n hn
    obtain ⟨m, rfl⟩ : ∃ m, n = m + 1 := ⟨n - 1, by omega⟩
    obtain ⟨kvs, hkvs, hS⟩ := hs1
    have h : B.statusReq (0, N2) (JVal.jstr origId) = (Except.ok (JVal.jobj kvs), (0, N2)) := by
      simp [hB, redirectScript, jvalEqStr, hkvs]
    rw [pollLoop_step_success B m (0, N2) (0, N2) (JVal.jstr origId) kvs h hS]
    have hr : B.resultReq (0, N2) (JVal.jstr origId) = (Except.ok redirectBody, (0, N2)) := by
      simp [hB, redirectScript, jvalEqStr]
    rw [hr]
    simp only [hred, if_true]
    rw [htgt, redirectScript_phase2 origId newId p q succ1 succ2 redirectBody finalBody
      hq hs2 hfin hne N2 m 0 (by omega)]
    simp
  | succ N1 ih =>
    intro N2 n hn
    obtain ⟨m, rfl⟩ : ∃ m, n = m + 1 := ⟨n - 1, by omega⟩
    obtain ⟨kvs, hkvs, hS, hF⟩ := hp (N1 + 1)
    have h : B.statusReq (N1 + 1, N2) (JVal.jstr origId) =
        (Except.ok (JVal.jobj kvs), (N1, N2)) := by
      simp [hB, redirectScript, jvalEqStr, hkvs]
    rw [pollLoop_step_nonterminal B m (N1 + 1, N2) (N1, N2) (JVal.jstr origId) kvs h hS hF]
    rw [ih N2 m (by omega)]
    simp [List.replicate_succ]

/-- C1: in a poll where a status check reports `SUCCESS`, the result fetch
returns one orchestrator-redirect marker carrying a fresh `result_id`, and
the backend then serves a final non-redirect result under that new
identifier, `get_monte_carlo_results` (i) swaps the tracked identifier for
the new one and resumes polling the *status* endpoint for it, (ii) issues
no further request for the original identifier after the redirecting result
fetch, and (iii) returns `SUCCESS` carrying exactly the final result body.
The request trace is pinned completely: N1+1 status checks for the original
identifier, its result fetch (the redirect), then N2+1 status checks and
one result fetch for the new identifier only. -/
theorem monte_carlo_redirect_following (origId newId : String) (p q : Nat → JVal)
    (succ1 succ2 redirectBody finalBody : JVal) (N1 N2 : Nat)
    (hbudget : N1 + N2 + 2 ≤ 15)
    (hp : ∀ i, nonTerminalBody (p i)) (hq : ∀ i, nonTerminalBody (q i))
    (hs1 : successBody succ1) (hs2 : successBody succ2)
    (hred : isRedirect redirectBody = true)
    (htgt : redirectTarget redirectBody = JVal.jstr newId)
    (hfin : isRedirect finalBody = false) (hne : newId ≠ origId)
    (k u : String) (hk : k ≠ "") (hu : u ≠ "") :
    (get_monte_carlo_results (redirectScript origId p q succ1 succ2 redirectBody finalBody)
        (N1, N2) (some k) (some u) origId).1 = PollOutcome.success finalBody ∧
    (get_monte_carlo_results (redirectScript origId p q succ1 succ2 redirectBody finalBody)
        (N1, N2) (some k) (some u) origId).2.2 =
      List.replicate (N1 + 1) (Req.statusGet (JVal.jstr origId)) ++
        Req.resultGet (JVal.jstr origId) ::
          (List.replicate (N2 + 1) (Req.statusGet (JVal.jstr newId)) ++
            [Req.resultGet (JVal.jstr newId)]) ∧
    (∀ r ∈ List.replicate (N2 + 1) (Req.statusGet (JVal.jstr newId)) ++
        [Req.resultGet (JVal.jstr newId)],
      r ≠ Req.statusGet (JVal.jstr origId) ∧ r ≠ Req.resultGet (JVal.jstr origId)) := by
  have hrun := redirectScript_phase1 origId newId p q succ1 succ2 redirectBody finalBody
    hp hq hs1 hs2 hred htgt hfin hne N1 N2 15 hbudget
  refine ⟨?_, ?_, ?_⟩
  · unfold get_monte_carlo_results
    simp only [pyFalsyOptStr, hk, decide_eq_true_eq, if_neg, if_false, hu]
    rw [hrun]
  · unfold get_monte_carlo_results
    simp only [pyFalsyOptStr, hk, decide_eq_true_eq, if_neg, if_false, hu]
    rw [hrun]
  · intro r hr
    rcases List.mem_append.1 hr with hmem | hmem
    · rw [List.eq_of_mem_replicate hmem]
      exact ⟨by simp [hne], by simp⟩
    · rw [List.mem_singleton.1 hmem]
      exact ⟨by simp, by simp [hne]⟩

/-- The canonical orchestrator-redirect marker
`{"status": "Orchestrator started", "result_id": "job-2"}`. -/
def sampleRedirectBody : JVal :=
  JVal.jobj [("status", JVal.jstr "Orchestrator started"), ("result_id", JVal.jstr "job-2")]

/-- A sample non-redirect final result body. -/
def sampleFinalBody : JVal :=
  JVal.jobj [("probability_of_success", JVal.jnum 95)]

/-- Witness for C1 at a concrete scripted scenario (one still-running
response before each `SUCCESS`). -/
theorem monte_carlo_redirect_following_witness :
    (get_monte_carlo_results
        (redirectScript "job-1" (fun _ => JVal.jobj [("status", JVal.jstr "PENDING")])
          (fun _ => JVal.jobj [("status", JVal.jstr "PENDING")])
          (JVal.jobj [("status", JVal.jstr "SUCCESS")])
          (JVal.jobj [("status", JVal.jstr "SUCCESS")])
          sampleRedirectBody sampleFinalBody)
        (1, 1) (some "key") (some "http://api") "job-1").1 =
      PollOutcome.success sampleFinalBody ∧
    (get_monte_carlo_results
        (redirectScript "job-1" (fun _ => JVal.jobj [("status", JVal.jstr "PENDING")])
          (fun _ => JVal.jobj [("status", JVal.jstr "PENDING")])
          (JVal.jobj [("status", JVal.jstr "SUCCESS")])
          (JVal.jobj [("status", JVal.jstr "SUCCESS")])
          sampleRedirectBody sampleFinalBody)
        (1, 1) (some "key") (some "http://api") "job-1").2.2 =
      List.replicate 2 (Req.statusGet (JVal.jstr "job-1")) ++
        Req.resultGet (JVal.jstr "job-1") ::
          (List.replicate 2 (Req.statusGet (JVal.jstr "job-2")) ++
            [Req.resultGet (JVal.jstr "job-2")]) := by
  have h := monte_carlo_redirect_following "job-1" "job-2"
    (fun _ => JVal.jobj [("status", JVal.jstr "PENDING")])
    (fun _ => JVal.jobj [("status", JVal.jstr "PENDING")])
    (JVal.jobj [("status", JVal.jstr "SUCCESS")])
    (JVal.jobj [("status", JVal.jstr "SUCCESS")])
    sampleRedirectBody sampleFinalBody 1 1 (by omega)
    (fun _ => ⟨[("status", JVal.jstr "PENDING")], rfl, rfl, rfl⟩)
    (fun _ => ⟨[("status", JVal.jstr "PENDING")], rfl, rfl, rfl⟩)
    ⟨[("status", JVal.jstr "SUCCESS")], rfl, rfl⟩
    ⟨[("status", JVal.jstr "SUCCESS")], rfl, rfl⟩
    rfl rfl rfl (by decide) "key" "http://api" (by decide) (by decide)
  exact ⟨h.1, h.2.1⟩

/-- Witness for C5: supplying a spouse age on top of the tool defaults
yields a couple-mode request. -/
theorem couple_mode_iff_spouse_age_witness :
    (construct_payload { defaultArgs with spouse_age := some 58 }).inputs.individual = false :=
  (couple_mode_iff_spouse_age { defaultArgs with spouse_age := some 58 }).1.mpr rfl

/-- Witness for the amended C8: a missing key and a resolved key produce
different results for the same failing call outcome. -/
theorem sync_error_classification_witness :
    calculate_sustainable_spend none (some "http://api") (CallOutcome.netError "boom") ≠
      calculate_sustainable_spend (some "key") (some "http://api") (CallOutcome.netError "boom") :=
  sync_error_classification.2.2.1 "boom" (CallOutcome.netError "boom")

end NowCapital
